import Mathlib

/-!
Verification development for the sfp-tik-monitor collectors.

The definitions below are a shallow embedding of the class-based collectors
(`RouterOSCollector` in src/routeros_collector.py, `ZaramONTCollector` in
src/zaram_ont_collector.py) together with the configuration values from
src/config.py that they read.  Python strings are Lean `String`s, machine
floats are modelled as rationals (all device values are short decimal
literals, which floats represent exactly at the precision the code uses),
Python `None`/exceptions become `Option`/`Except`, and the Prometheus
metric sink becomes an explicit list of labelled writes.
-/

namespace SfpMon

/-! ## Python string primitives -/

/-- Python's `\s` class (`re` module, ASCII part): space, tab, newline,
carriage return, vertical tab, form feed. -/
def pyWs (c : Char) : Bool :=
  c == ' ' || c == '\t' || c == '\n' || c == '\x0d' || c == '\x0b' || c == '\x0c'

/-- Python `str.strip()` on a character list: drop whitespace from both ends. -/
def pyStripL (cs : List Char) : List Char := cs.dropWhile pyWs

def pyStripR (cs : List Char) : List Char := (pyStripL cs.reverse).reverse

def pyStripChars (cs : List Char) : List Char := pyStripR (pyStripL cs)

/-- Python `str.strip()`. -/
def pyStrip (s : String) : String := ⟨pyStripChars s.data⟩

/-- Python `str.rstrip(chars)`: drop trailing characters belonging to `set`. -/
def pyRstripSet (set : List Char) (s : String) : String :=
  ⟨((s.data.reverse).dropWhile (fun c => set.contains c)).reverse⟩

/-- Digit characters to their numeric value, most significant first. -/
def digitsVal (cs : List Char) : ℕ :=
  cs.foldl (fun n c => 10 * n + (c.toNat - 48)) 0

def hexDigitVal (c : Char) : ℕ :=
  if c.isDigit then c.toNat - 48
  else if 'a' ≤ c.toLower ∧ c.toLower ≤ 'f' then c.toLower.toNat - 87
  else 0

def isHexDigit (c : Char) : Bool :=
  c.isDigit || ('a' ≤ c.toLower && c.toLower ≤ 'f')

def hexVal (cs : List Char) : ℕ :=
  cs.foldl (fun n c => 16 * n + hexDigitVal c) 0

/-- Python `str.lower()` (ASCII case folding, which is all the matched
device output uses). -/
def pyLower (s : String) : String := ⟨s.data.map Char.toLower⟩

/-! ## Python float() -/

/-- Value of the decimal literal `m / 10^k` scaled by `10^e`, built with
`mkRat` so it normalizes like any other rational. -/
def decimalRat (m k : ℕ) (e : ℤ) : ℚ :=
  if 0 ≤ e then mkRat ((m : ℤ) * ((10 ^ e.toNat : ℕ) : ℤ)) (10 ^ k)
  else mkRat (m : ℤ) (10 ^ k * 10 ^ (-e).toNat)

/-- Exponent suffix of a float literal: empty, or `e`/`E` followed by an
optionally signed digit run reaching the end of the string. -/
def expSuffix : List Char → Option ℤ
  | [] => some 0
  | e :: rest =>
    if e == 'e' || e == 'E' then
      match rest with
      | '+' :: ds => if ds ≠ [] ∧ ds.all Char.isDigit then some (digitsVal ds) else none
      | '-' :: ds => if ds ≠ [] ∧ ds.all Char.isDigit then some (-(digitsVal ds : ℤ)) else none
      | ds => if ds ≠ [] ∧ ds.all Char.isDigit then some (digitsVal ds) else none
    else none

/-- Unsigned mantissa with optional fraction and exponent, consuming the whole
string: `digits [. digits] [exp]` with at least one mantissa digit. -/
def mantExp (cs : List Char) : Option ℚ :=
  let ip := cs.takeWhile Char.isDigit
  let rest := cs.dropWhile Char.isDigit
  match rest with
  | '.' :: r2 =>
    let fp := r2.takeWhile Char.isDigit
    let r3 := r2.dropWhile Char.isDigit
    if ip = [] ∧ fp = [] then none
    else (expSuffix r3).map (fun e => decimalRat (digitsVal (ip ++ fp)) fp.length e)
  | r =>
    if ip = [] then none
    else (expSuffix r).map (fun e => decimalRat (digitsVal ip) 0 e)

/-- Python `float(s)` on the decimal-literal forms the device emits
(sign, digits, one optional dot, optional exponent; surrounding whitespace
stripped).  The `inf`/`nan`/underscore spellings never occur in this code's
inputs and are not modelled. -/
def pyFloat (s : String) : Option ℚ :=
  match pyStripChars s.data with
  | '+' :: cs => mantExp cs
  | '-' :: cs => (mantExp cs).map Neg.neg
  | cs => mantExp cs

/-- Python `float` applied to a captured `[\d.-]+` run (no surrounding
whitespace possible, sign only valid in front). -/
def pyFloatRun (cs : List Char) : Option ℚ :=
  match cs with
  | '-' :: rest => (mantExp rest).map Neg.neg
  | _ => mantExp cs

/-! ## Minimal regex semantics

Every pattern the collectors use has the shape
`literal  ws*  separator  ws*  character-class-run  suffix`, where the
character classes never overlap the characters that follow them, so greedy
maximal-munch matching coincides with the backtracking semantics of
`re.search`.  `searchA` reproduces `re.search`'s leftmost-position scan. -/

/-- Case-insensitive literal match (pattern supplied lowercase), returning the
rest of the input. -/
def litCI : List Char → List Char → Option (List Char)
  | [], rest => some rest
  | _, [] => none
  | p :: ps, c :: cs => if p == c.toLower then litCI ps cs else none

/-- Case-sensitive literal match. -/
def litCS : List Char → List Char → Option (List Char)
  | [], rest => some rest
  | _, [] => none
  | p :: ps, c :: cs => if p == c then litCS ps cs else none

def expectC (c : Char) : List Char → Option (List Char)
  | [] => none
  | d :: ds => if d == c then some ds else none

/-- First alternative (in pattern order) that matches, with the rest of the
input; alternatives supplied lowercase, matched case-insensitively. -/
def altLitCI : List (List Char) → List Char → Option (List Char × List Char)
  | [], _ => none
  | p :: ps, cs =>
    match litCI p cs with
    | some rest => some (p, rest)
    | none => altLitCI ps cs

/-- Python `re.search`: try the positional matcher at every position, leftmost
first. -/
def searchA {α : Type} (m : List Char → Option α) : List Char → Option α
  | [] => m []
  | c :: cs =>
    match m (c :: cs) with
    | some r => some r
    | none => searchA m cs

/-- Substring test (`needle in haystack` for Python strings). -/
def containsSub (needle : String) (haystack : String) : Bool :=
  (searchA (fun cs => litCS needle.data cs) haystack.data).isSome

/-- Character class `[\d.-]`. -/
def numClass (c : Char) : Bool := c.isDigit || c == '.' || c == '-'

/-- Character class `[\d.]`. -/
def udClass (c : Char) : Bool := c.isDigit || c == '.'

/-- Character class `[\w\s]` (ASCII word characters or whitespace). -/
def wordWsClass (c : Char) : Bool :=
  c.isAlphanum || c == '_' || pyWs c

end SfpMon

namespace SfpMon

/-! ## Metric sink model

Each Prometheus metric object from src/metrics_registry.py that the
collectors write becomes a constructor; a write records the metric, the
label values in declaration order, and the value set.  All collector writes
are absolute `set`s (`Gauge.set`, `Counter._value.set`, `Info.info`); the
only accumulating operations in the code are the `collection_errors_total`
counter increments, which the request/cycle embeddings report as separate
tallies rather than sink writes. -/

inductive MetricId where
  | interfaceLinkStatus | interfaceLinkDowns
  | interfaceLastLinkUp | interfaceLastLinkDown
  | interfaceRxBytes | interfaceTxBytes
  | interfaceRxPackets | interfaceTxPackets
  | interfaceRxErrors | interfaceTxErrors
  | interfaceRxDrops | interfaceTxDrops | interfaceTxQueueDrops
  | sfpTemperature | sfpTxBiasCurrent | sfpVoltage
  | sfpRxPower | sfpTxPower
  | sfpDataStale | sfpLastVerified | sfpVendorSerial
  | sfpTxFcsError | sfpTxCollision | sfpTxExcessiveCollision
  | sfpTxLateCollision | sfpTxDeferred
  | sfpRxTooShort | sfpRxTooLong | sfpRxJabber
  | sfpRxFcsError | sfpRxAlignError | sfpRxFragment
  | sfpRxOverflow | sfpTxUnderrun
  | ontSfpTemperature | ontSfpRxPower | ontSfpTxPower
  | ontSfpVoltage | ontSfpTxBiasCurrent | ontSfpDiagnosticType
  | ontPonFecCorrectedBytes | ontPonFecCorrectedCodewords
  | ontPonFecUncorrectableCodewords | ontPonFecTotalCodewords
  | ontPonSerdesState | ontPonSerdesTextState | ontPonLinkStatus
  | ontCpuUsage | ontMemoryUsed | ontMemoryTotal | ontMemoryUsage
  | ontOltVendorId | ontOltVersion
  | collectionDuration | collectionSuccess | lastCollectionTimestamp
  deriving DecidableEq, Repr

/-- Value written to a metric: a number for gauges/counters, a string for
`Info` metrics and for raw timestamp strings whose epoch conversion
(timezone-dependent `datetime.timestamp()`) is outside the model. -/
inductive MVal where
  | num (q : ℚ)
  | str (s : String)
  deriving DecidableEq, Repr

structure MWrite where
  metric : MetricId
  labels : List String
  value : MVal
  deriving DecidableEq, Repr

/-! ## Configuration (src/config.py)

Only the fields the modelled code paths read.  `stale_data_threshold_dbm`
is hardcoded to `-40.0` in `Config.__init__`; `olt_vendor_map` is the
literal table from `Config.__init__` in declaration order. -/

structure Config where
  monitored_interfaces : List String
  stale_data_threshold_dbm : ℚ := -40

def olt_vendor_map : List (String × String) :=
  [ ("0x414c434c", "Alcatel-Lucent"), ("0x414c4c47", "Allgon"),
    ("0x41564d47", "AVM"), ("0x41534b59", "Askey"),
    ("0x43444b54", "Comkey"), ("0x43494747", "CIG"),
    ("0x43584e4b", "Cisco"), ("0x44444b54", "Dasan"),
    ("0x444c4e4b", "D-Link"), ("0x44534e57", "Dasan"),
    ("0x454c5458", "Eltex"), ("0x46485454", "FiberHome"),
    ("0x474d544b", "Gemtek"), ("0x474e5853", "Genexis"),
    ("0x47504e43", "GPON"), ("0x47504f4e", "GPON"),
    ("0x47544847", "GTHG"), ("0x48414c4e", "Halon"),
    ("0x48424d54", "HBM"), ("0x48554d41", "Huawei"),
    ("0x48575443", "Huawei"), ("0x49435452", "iControl"),
    ("0x49534b54", "iSKT"), ("0x4b414f4e", "Kaon"),
    ("0x4c454f58", "Leox"), ("0x4c514445", "LQDE"),
    ("0x4d535443", "MSTC"), ("0x4e4f4b47", "Nokia"),
    ("0x4e4f4b57", "Nokia"), ("0x5054494e", "PTIN"),
    ("0x52544b47", "Realtek"), ("0x53434f4d", "Sercomm"),
    ("0x534b5957", "Skyworth"), ("0x534d4253", "SMBS"),
    ("0x53504741", "SPGA"), ("0x544d4242", "Thomson"),
    ("0x54504c47", "TP-Link"), ("0x55424e54", "Ubiquiti"),
    ("0x55475244", "UGRD"), ("0x59485443", "YHTC"),
    ("0x5a4e5453", "Zioncom"), ("0x5a524d54", "ZRMT"),
    ("0x5a544547", "ZTE"), ("0x5a59574e", "ZYWNE"),
    ("0x5a595845", "ZYXEL"), ("0x5a54", "ZTE"),
    ("0x5a53", "ZTE"), ("0x5a58", "ZTE"),
    ("0x5a49", "Zaram"), ("0x4853", "Huawei") ]

/-- Python `dict.get(key, default)` over the vendor table (keys are
distinct, so association-list lookup agrees with the dict). -/
def vendorMapGet (key : String) (dflt : String) : String :=
  match olt_vendor_map.lookup key with
  | some v => v
  | none => dflt

/-! ## ZaramONTCollector vendor identification (src/zaram_ont_collector.py) -/

/-- Positional matcher for `oltVendorId\s*:\s*([0-9a-fA-F]+)` (IGNORECASE):
the capture is the maximal hex-digit run. -/
def oltVendorIdAt (cs : List Char) : Option (List Char) :=
  match litCI "oltvendorid".data cs with
  | none => none
  | some r1 =>
    match expectC ':' (r1.dropWhile pyWs) with
    | none => none
    | some r2 =>
      let r3 := r2.dropWhile pyWs
      let cap := r3.takeWhile isHexDigit
      if cap.isEmpty then none else some cap

/-- Model of `_extract_olt_vendor_id`: search the dump for the vendor-id line and
convert the hex capture with `int(_, 16)`. -/
def extract_olt_vendor_id (output : String) : Option ℕ :=
  (searchA oltVendorIdAt output.data).map hexVal

/-- Python `f"0x{vendor_id:08x}"`: lowercase hex, zero-padded on the left to
at least eight digits. -/
def formatHex08 (v : ℕ) : String :=
  let ds := Nat.toDigits 16 v
  ⟨'0' :: 'x' :: (List.replicate (8 - ds.length) '0' ++ ds)⟩

/-- Model of `_get_vendor_name`: format the numeric id back to a hex string and look
it up in the vendor table, defaulting to "Unknown". -/
def get_vendor_name (vendor_id : ℕ) : String :=
  vendorMapGet (formatHex08 vendor_id) "Unknown"

end SfpMon

namespace SfpMon

/-! ## RouterOS SFP monitor data (src/routeros_collector.py) -/

/-- JSON scalar as the RouterOS REST API returns it: the code's
`isinstance(x, str)` checks distinguish strings from numbers. -/
inductive JVal where
  | s (v : String)
  | n (q : ℚ)
  deriving DecidableEq, Repr

/-- Fields of an `interface/ethernet/monitor` response object that
`_process_sfp_metrics` / `_collect_sfp_error_stats` read; absent dict keys
are `none`. -/
structure SfpData where
  name : Option String := none
  status : Option String := none
  sfp_temperature : Option JVal := none
  sfp_tx_bias_current : Option JVal := none
  sfp_supply_voltage : Option JVal := none
  sfp_rx_power : Option JVal := none
  sfp_tx_power : Option JVal := none
  sfp_vendor_serial : Option String := none
  sfp_tx_fcs_error : Option JVal := none
  sfp_tx_collision : Option JVal := none
  sfp_tx_excessive_collision : Option JVal := none
  sfp_tx_late_collision : Option JVal := none
  sfp_tx_deferred : Option JVal := none
  sfp_rx_too_short : Option JVal := none
  sfp_rx_too_long : Option JVal := none
  sfp_rx_jabber : Option JVal := none
  sfp_rx_fcs_error : Option JVal := none
  sfp_rx_align_error : Option JVal := none
  sfp_rx_fragment : Option JVal := none
  sfp_rx_overflow : Option JVal := none
  sfp_tx_underrun : Option JVal := none
  dot_id : Option String := none
  deriving DecidableEq, Repr

/-- Python `float(x)` on a JSON scalar. -/
def jvalFloat : JVal → Option ℚ
  | .s v => pyFloat v
  | .n q => some q

/-- Shared shape of the unit-suffix conversions in `_process_sfp_metrics`
and `_process_optical_power`: if the value is a string containing the unit
marker, strip the marker's characters from the right and convert with
`float()`; otherwise convert directly. -/
def unitField (marker : String) (set : List Char) : JVal → Option ℚ
  | .s v => if containsSub marker v then pyFloat (pyRstripSet set v) else pyFloat v
  | .n q => some q

/-- The rx/tx power conversion (`'dBm' in s` then `s.rstrip('dBm')`). -/
def parseDbmField : JVal → Option ℚ := unitField "dBm" ['d', 'B', 'm']

/-- One optional-field gauge write of `_process_sfp_metrics`
(temperature / bias current / voltage blocks, which differ only in field,
marker and metric); a failed conversion only logs, writing nothing. -/
def mkOptW (field : Option JVal) (marker : String) (set : List Char)
    (m : MetricId) (name : String) : List MWrite :=
  match field with
  | none => []
  | some jv =>
    match unitField marker set jv with
    | none => []
    | some v => [⟨m, [name], .num v⟩]

/-- One power block of `_process_optical_power` (the rx and tx blocks are
verbatim duplicates differing only in field, `metric_type` label and power
metric): on a parsed value, set the staleness gauge to 1 when the link is
down and the power exceeds the threshold, else to 0, then publish the
power itself. -/
def powerBlock (field : Option JVal) (name mtype : String) (pm : MetricId)
    (link_is_up : Bool) (thr : ℚ) : List MWrite :=
  match field with
  | none => []
  | some jv =>
    match parseDbmField jv with
    | none => []
    | some p =>
      [⟨.sfpDataStale, [name, mtype], .num (if link_is_up = false ∧ thr < p then 1 else 0)⟩,
       ⟨pm, [name], .num p⟩]

/-- Model of `_process_optical_power`: rx block then tx block.  `current_time` is
passed by the caller but never used by the function (no last-verified write
exists in it). -/
def process_optical_power (d : SfpData) (name : String) (link_is_up : Bool)
    (thr : ℚ) : List MWrite :=
  powerBlock d.sfp_rx_power name "rx_power" .sfpRxPower link_is_up thr ++
  powerBlock d.sfp_tx_power name "tx_power" .sfpTxPower link_is_up thr

/-- Model of `_process_sfp_vendor_serial`: write the Info metric when the serial is
truthy and not whitespace-only (the last-seen tracker only affects
logging). -/
def process_sfp_vendor_serial (d : SfpData) (name : String) : List MWrite :=
  match d.sfp_vendor_serial with
  | none => []
  | some vs =>
    if vs ≠ "" ∧ pyStrip vs ≠ "" then [⟨.sfpVendorSerial, [name], .str vs⟩] else []

/-- Link state as `_process_sfp_metrics` derives it:
`sfp_data.get('status', 'down').lower() == 'link-ok'`. -/
def sfpLinkIsUp (d : SfpData) : Bool :=
  pyLower (d.status.getD "down") == "link-ok"

/-- Model of `_process_sfp_metrics` (RouterOS side): temperature, TX bias current,
supply voltage, then the optical-power blocks, then the vendor serial. -/
def routeros_process_sfp_metrics (d : SfpData) (name : String) (thr : ℚ) : List MWrite :=
  mkOptW d.sfp_temperature "C" ['C'] .sfpTemperature name ++
  mkOptW d.sfp_tx_bias_current "mA" ['m', 'A'] .sfpTxBiasCurrent name ++
  mkOptW d.sfp_supply_voltage "V" ['V'] .sfpVoltage name ++
  process_optical_power d name (sfpLinkIsUp d) thr ++
  process_sfp_vendor_serial d name

end SfpMon

namespace SfpMon

/-! ## HTTP request layer (`_make_request`, src/routeros_collector.py)

The network is an oracle mapping the attempt number to what that attempt
produced: a response (status, body, whether `response.json()` parses) or
one of the three exception classes the handler distinguishes. -/

inductive HttpOutcome (α : Type) where
  | resp (status : ℕ) (body : α) (jsonValid : Bool)
  | timeout
  | reqError
  | exn
  deriving DecidableEq, Repr

inductive HttpMethod where
  | get | post | other
  deriving DecidableEq, Repr

/-- What one `_make_request` call did: its return value, how many times it
called `_refresh_password`, which error-kind counters it incremented
(in order), and how many HTTP attempts it issued. -/
structure ReqResult (α : Type) where
  result : Option α
  refreshes : ℕ
  errKinds : List String
  attempts : ℕ
  deriving DecidableEq, Repr

/-- Terminal handling shared by the retried and non-retried paths
(`if response.status_code == 200: return response.json()` else log and
return None — note: no counter increment on a non-200 status). -/
def settleResponse {α : Type} (st : ℕ) (body : α) (jsonValid : Bool)
    (refreshes attempts : ℕ) : ReqResult α :=
  if st = 200 then
    if jsonValid then ⟨some body, refreshes, [], attempts⟩
    else ⟨none, refreshes, ["unexpected"], attempts⟩
  else ⟨none, refreshes, [], attempts⟩

/-- Model of `_make_request`: refresh the password if unset (a failed refresh raises
`ValueError`, caught by the generic handler as `unexpected`); reject
unsupported methods; issue the request; on a 401, refresh once and retry
the same request once; settle on the final status.  `passwordSet` is
whether `self.api_password` is truthy, `secretOk` whether the secret
provider can produce a password. -/
def make_request {α : Type} (passwordSet secretOk : Bool) (method : HttpMethod)
    (net : ℕ → HttpOutcome α) : ReqResult α :=
  match (if passwordSet then some 0 else if secretOk then some 1 else none : Option ℕ) with
  | none => ⟨none, 1, ["unexpected"], 0⟩
  | some r0 =>
    match method with
    | .other => ⟨none, r0, [], 0⟩
    | _ =>
      match net 0 with
      | .timeout => ⟨none, r0, ["timeout"], 1⟩
      | .reqError => ⟨none, r0, ["request_error"], 1⟩
      | .exn => ⟨none, r0, ["unexpected"], 1⟩
      | .resp st body jsonValid =>
        if st = 401 then
          if secretOk then
            match net 1 with
            | .timeout => ⟨none, r0 + 1, ["timeout"], 2⟩
            | .reqError => ⟨none, r0 + 1, ["request_error"], 2⟩
            | .exn => ⟨none, r0 + 1, ["unexpected"], 2⟩
            | .resp st2 b2 jv2 => settleResponse st2 b2 jv2 (r0 + 1) 2
          else ⟨none, r0 + 1, ["unexpected"], 1⟩
        else settleResponse st body jsonValid r0 1

end SfpMon

namespace SfpMon

/-! ## Text cleanup helpers for shell replies (src/zaram_ont_collector.py) -/

def containsSubL (needle hay : List Char) : Bool :=
  (searchA (fun cs => litCS needle cs) hay).isSome

def removeOccAux (pat : List Char) : ℕ → List Char → List Char
  | 0, cs => cs
  | _ + 1, [] => []
  | fuel + 1, c :: cs =>
    match litCS pat (c :: cs) with
    | some rest => removeOccAux pat fuel rest
    | none => c :: removeOccAux pat fuel cs

/-- Python `s.replace(pat, '')`: remove every (left-to-right,
non-overlapping) occurrence. -/
def removeAllOcc (pat cs : List Char) : List Char := removeOccAux pat cs.length cs

/-- Python `s.split('\n')` (keeps empty pieces). -/
def splitOnNl : List Char → List (List Char)
  | [] => [[]]
  | c :: cs =>
    if c == '\n' then [] :: splitOnNl cs
    else
      match splitOnNl cs with
      | [] => [[c]]
      | l :: ls => (c :: l) :: ls

/-- The list-comprehension cleanup used on captured replies: keep each
line whose `strip()` is non-empty and which contains neither `admin@` nor
`ZXOS11NPI`, replacing it by its stripped form, and re-join with
newlines. -/
def cleanLines (cs : List Char) : List Char :=
  List.intercalate ['\n'] ((splitOnNl cs).filterMap (fun l =>
    let ls := pyStripChars l
    if ls ≠ [] ∧ containsSubL "admin@".data l = false ∧
        containsSubL "ZXOS11NPI".data l = false then some ls else none))

/-- Number of characters `\s*\r?\n` consumes from the whitespace run after
the echoed command: everything up to and including the run's last newline
(the greedy `\s*` backtracks just enough to leave a final `\r?\n`); no
newline in the run means no match. -/
def lastNlCount (run : List Char) : Option ℕ :=
  match run.reverse.findIdx? (fun c => c == '\n') with
  | none => none
  | some j => some (run.length - j)

/-- Positional matcher for `re.escape(cmd) + r'\s*\r?\n'`. -/
def cmdEchoAt (cmd : List Char) (cs : List Char) : Option (List Char) :=
  match litCS cmd cs with
  | none => none
  | some r =>
    match lastNlCount (r.takeWhile pyWs) with
    | none => none
    | some k => some (r.drop k)

/-- Python `re.sub(re.escape(cmd) + r'\s*\r?\n', '', out, count=1)`: drop the
leftmost echo of the command plus its trailing newline. -/
def subFirstEcho (cmd : List Char) : List Char → List Char
  | [] => []
  | c :: cs =>
    match cmdEchoAt cmd (c :: cs) with
    | some rest => rest
    | none => c :: subFirstEcho cmd cs

/-- Reply cleanup of `_run_olt_vendor_command` (and `_run_commands`):
strip the echoed command, then the line cleanup. -/
def cleanCmdOutput (cmd : String) (t : String) : String :=
  ⟨cleanLines (subFirstEcho cmd.data t.data)⟩

/-! ## Interactive shell session (src/zaram_ont_collector.py)

A session run is driven by an oracle recording what each `pexpect.expect`
call returned.  The handshake fields hold the pattern index the expect
returned (`TIMEOUT`/`EOF` listed as patterns return their index rather
than raising); `cmdResult i` is what happened for the i-th command of the
command loop; `exitPromptOk` is whether the post-loop
`child.expect(r'\[.*\] >', timeout=5)` found the router prompt (on
`False` it raises `pexpect.TIMEOUT`). -/

inductive CmdOutcome where
  | reply (text : String)
  | timedOut
  | raised
  deriving Repr

structure SessionEnv where
  sshAuth : ℕ
  routerPrompt : ℕ
  telnetLogin : ℕ
  passwordPrompt : ℕ
  devicePrompt : ℕ
  cmdResult : ℕ → CmdOutcome
  exitPromptOk : Bool

/-- The `ZaramONTCollector` state the modelled methods read.  The vendor
table field is the same literal `olt_vendor_map` from the configuration. -/
structure ZaramCollector where
  interface_name : String
  zaram_ont_password : Option String
  deriving DecidableEq, Repr

/-- Model of `ZaramONTCollector.__init__`: `monitored_interfaces[0]` raises
`IndexError` on an empty list, and a missing password raises
`ValueError`; otherwise the interface name is fixed to the first
configured name. -/
def zaram_init (monitored : List String) (pw : Option String) : Option ZaramCollector :=
  match monitored with
  | [] => none
  | n :: _ =>
    match pw with
    | none => none
    | some p => some ⟨n, some p⟩

/-- The regular (fast-cadence) command list of `_run_regular_commands`. -/
def regular_commands : List String :=
  ["sfp info", "onu show pon counter", "onu show ponlink",
   "onu show pon serdes", "sysmon cpu", "sysmon memory"]

/-- Reply handling of `_run_regular_commands` for the i-th command: a
timeout or a raised exception records an empty string; a captured reply
records `output.replace(cmd, '').strip()`. -/
def regularCmdText (env : SessionEnv) (i : ℕ) (cmd : String) : String :=
  match env.cmdResult i with
  | .timedOut => ""
  | .raised => ""
  | .reply t => pyStrip ⟨removeAllOcc cmd.data t.data⟩

/-- Model of `_run_regular_commands`: one entry per command, in order, each command
getting an entry whatever its outcome. -/
def run_regular_commands (env : SessionEnv) : List (String × String) :=
  regular_commands.enum.map (fun p => (p.2, regularCmdText env p.1 p.2))

/-- Model of `_connect_and_collect_regular`: the handshake (SSH password-prompt
check, router prompt, telnet login prompt, device password prompt,
password presence, device shell prompt), the command loop, then the
teardown `expect` for the router prompt — whose timeout raises, is caught
by the method's blanket handler, and turns the whole session into `None`
even though the command outputs were already collected. -/
def connect_and_collect_regular (col : ZaramCollector) (env : SessionEnv) :
    Option (List (String × String)) :=
  if env.sshAuth = 0 then none
  else if env.routerPrompt ≠ 0 then none
  else if env.telnetLogin ≠ 0 then none
  else if env.passwordPrompt ≠ 0 then none
  else
    match col.zaram_ont_password with
    | none => none
    | some _ =>
      if env.devicePrompt ≠ 0 then none
      else
        let outs := run_regular_commands env
        if env.exitPromptOk then some outs else none

/-- The handshake-success condition of the claim: none of the terminal
states before the command loop was reached. -/
def regularHandshakeOk (col : ZaramCollector) (env : SessionEnv) : Bool :=
  decide (env.sshAuth ≠ 0) && decide (env.routerPrompt = 0) &&
  decide (env.telnetLogin = 0) && decide (env.passwordPrompt = 0) &&
  col.zaram_ont_password.isSome && decide (env.devicePrompt = 0)

/-- The slow-cadence command list of `_run_olt_vendor_command`. -/
def olt_vendor_commands : List String := ["onu dump ptp"]

/-- Reply handling of `_run_olt_vendor_command`: timeout or exception
record an empty string; a captured reply is echo-stripped and
line-cleaned. -/
def oltCmdText (env : SessionEnv) (i : ℕ) (cmd : String) : String :=
  match env.cmdResult i with
  | .timedOut => ""
  | .raised => ""
  | .reply t => cleanCmdOutput cmd t

def run_olt_vendor_command (env : SessionEnv) : List (String × String) :=
  olt_vendor_commands.enum.map (fun p => (p.2, oltCmdText env p.1 p.2))

/-- Model of `_connect_and_collect_olt_vendor`: identical handshake and teardown to
the regular path, with the single-command loop. -/
def connect_and_collect_olt_vendor (col : ZaramCollector) (env : SessionEnv) :
    Option (List (String × String)) :=
  if env.sshAuth = 0 then none
  else if env.routerPrompt ≠ 0 then none
  else if env.telnetLogin ≠ 0 then none
  else if env.passwordPrompt ≠ 0 then none
  else
    match col.zaram_ont_password with
    | none => none
    | some _ =>
      if env.devicePrompt ≠ 0 then none
      else
        let outs := run_olt_vendor_command env
        if env.exitPromptOk then some outs else none

end SfpMon

namespace SfpMon

/-! ## Zaram ONT text scrapers (src/zaram_ont_collector.py)

One positional matcher per regex; each is the literal transcription of the
pattern into word literals, `\s*` skips, separators and character-class
captures. -/

/-- Pattern `\s*:\s*` after a label. -/
def colonAt (cs : List Char) : Option (List Char) :=
  (expectC ':' (cs.dropWhile pyWs)).map (fun r => r.dropWhile pyWs)

/-- A sequence of case-insensitive word literals joined by `\s*`. -/
def wordSeqAt : List (List Char) → List Char → Option (List Char)
  | [], cs => some cs
  | [w], cs => litCI w cs
  | w :: ws, cs =>
    match litCI w cs with
    | none => none
    | some r => wordSeqAt ws (r.dropWhile pyWs)

/-- Non-empty maximal run of a character class, with the rest. -/
def captureRun (cls : Char → Bool) (cs : List Char) : Option (List Char × List Char) :=
  let cap := cs.takeWhile cls
  if cap.isEmpty then none else some (cap, cs.dropWhile cls)

/-- Pattern `temperature\s*:\s*([\d.-]+)\s*C` (IGNORECASE). -/
def tempAt (cs : List Char) : Option (List Char) := do
  let r1 ← litCI "temperature".data cs
  let r2 ← colonAt r1
  let (cap, r3) ← captureRun numClass r2
  let _ ← litCI "c".data (r3.dropWhile pyWs)
  pure cap

/-- Pattern `rx\s*optical\s*power\s*:\s*[\d.]+\s*mW\s*\(([\d.-]+)\s*dBm\)`. -/
def rxPowerAt (cs : List Char) : Option (List Char) := do
  let r1 ← wordSeqAt ["rx".data, "optical".data, "power".data] cs
  let r2 ← colonAt r1
  let (_, r3) ← captureRun udClass r2
  let r4 ← litCI "mw".data (r3.dropWhile pyWs)
  let r5 ← expectC '(' (r4.dropWhile pyWs)
  let (cap, r6) ← captureRun numClass r5
  let r7 ← litCI "dbm".data (r6.dropWhile pyWs)
  let _ ← expectC ')' r7
  pure cap

/-- Pattern `tx\s*output\s*power\s*:\s*[\d.]+\s*mW\s*\(([\d.-]+)\s*dBm\)`. -/
def txPowerAt (cs : List Char) : Option (List Char) := do
  let r1 ← wordSeqAt ["tx".data, "output".data, "power".data] cs
  let r2 ← colonAt r1
  let (_, r3) ← captureRun udClass r2
  let r4 ← litCI "mw".data (r3.dropWhile pyWs)
  let r5 ← expectC '(' (r4.dropWhile pyWs)
  let (cap, r6) ← captureRun numClass r5
  let r7 ← litCI "dbm".data (r6.dropWhile pyWs)
  let _ ← expectC ')' r7
  pure cap

/-- Pattern `supply\s*voltage\s*:\s*([\d.]+)\s*V`. -/
def voltAt (cs : List Char) : Option (List Char) := do
  let r1 ← wordSeqAt ["supply".data, "voltage".data] cs
  let r2 ← colonAt r1
  let (cap, r3) ← captureRun udClass r2
  let _ ← litCI "v".data (r3.dropWhile pyWs)
  pure cap

/-- Pattern `tx\s*bias\s*current\s*:\s*([\d.]+)\s*mA`. -/
def biasAt (cs : List Char) : Option (List Char) := do
  let r1 ← wordSeqAt ["tx".data, "bias".data, "current".data] cs
  let r2 ← colonAt r1
  let (cap, r3) ← captureRun udClass r2
  let _ ← litCI "ma".data (r3.dropWhile pyWs)
  pure cap

/-- Pattern `diagnostic\s*monitoring\s*type\s*:\s*(0x[0-9a-fA-F]+)`; the capture
is converted with `int(_, 16)`, which accepts the `0x` prefix. -/
def diagAt (cs : List Char) : Option (List Char) := do
  let r1 ← wordSeqAt ["diagnostic".data, "monitoring".data, "type".data] cs
  let r2 ← colonAt r1
  let r3 ← litCI "0x".data r2
  let (cap, _) ← captureRun isHexDigit r3
  pure cap

/-- An optional single numeric metric write: nothing when the value is
absent (pattern miss or failed conversion). -/
def optNumWrite (m : MetricId) (ls : List String) : Option ℚ → List MWrite
  | none => []
  | some v => [⟨m, ls, .num v⟩]

/-- Body of `_process_sfp_metrics` on the `sfp info` reply: the early
return on empty/short output, then the six scrape-and-set blocks
(temperature, rx power, tx power, voltage, bias current, diagnostic
type), each writing only when its pattern matched and the captured text
converted. -/
def process_sfp_metrics_text (out : String) (iface : String) : List MWrite :=
  if out.data.length < 10 then []
  else
    optNumWrite .ontSfpTemperature [iface] ((searchA tempAt out.data).bind pyFloatRun) ++
    optNumWrite .ontSfpRxPower [iface] ((searchA rxPowerAt out.data).bind pyFloatRun) ++
    optNumWrite .ontSfpTxPower [iface] ((searchA txPowerAt out.data).bind pyFloatRun) ++
    optNumWrite .ontSfpVoltage [iface] ((searchA voltAt out.data).bind pyFloatRun) ++
    optNumWrite .ontSfpTxBiasCurrent [iface] ((searchA biasAt out.data).bind pyFloatRun) ++
    optNumWrite .ontSfpDiagnosticType [iface] ((searchA diagAt out.data).map (fun h => (hexVal h : ℚ)))

/-- Model of `_process_sfp_metrics`: nothing without an `sfp info` entry. -/
def process_sfp_metrics (outs : List (String × String)) (iface : String) : List MWrite :=
  match outs.lookup "sfp info" with
  | none => []
  | some out => process_sfp_metrics_text out iface

/-- Pattern `<label>\s*:\s*(\d+)` for the four FEC counters (IGNORECASE). -/
def fecAt (label : String) (cs : List Char) : Option (List Char) := do
  let r1 ← litCI label.data cs
  let r2 ← colonAt r1
  let (cap, _) ← captureRun Char.isDigit r2
  pure cap

/-- Model of `_parse_fec_statistics`: short-output guard, then the four
independent counter scrapes (stored with absolute `set`). -/
def parse_fec_statistics (out : String) (iface : String) : List MWrite :=
  if out.data.length < 10 then []
  else
    optNumWrite .ontPonFecCorrectedBytes [iface]
      ((searchA (fecAt "corrected byte(8-byte)") out.data).map (fun d => (digitsVal d : ℚ))) ++
    optNumWrite .ontPonFecCorrectedCodewords [iface]
      ((searchA (fecAt "corrected code words(8-byte)") out.data).map (fun d => (digitsVal d : ℚ))) ++
    optNumWrite .ontPonFecUncorrectableCodewords [iface]
      ((searchA (fecAt "uncorrectable code words(8-byte)") out.data).map (fun d => (digitsVal d : ℚ))) ++
    optNumWrite .ontPonFecTotalCodewords [iface]
      ((searchA (fecAt "total code words(8-byte)") out.data).map (fun d => (digitsVal d : ℚ)))

/-- Pattern `ponlink-status\s*:\s*(connect-OK|connect-FAIL|disconnect)`. -/
def ponlinkPrimaryAt (cs : List Char) : Option (List Char) := do
  let r1 ← litCI "ponlink-status".data cs
  let r2 ← colonAt r1
  let (pat, _) ← altLitCI ["connect-ok".data, "connect-fail".data, "disconnect".data] r2
  pure pat

/-- Pattern `ponlink-status\s*:\s*([^\s]+)`. -/
def ponlinkAnyAt (cs : List Char) : Option (List Char) := do
  let r1 ← litCI "ponlink-status".data cs
  let r2 ← colonAt r1
  let (cap, _) ← captureRun (fun c => !pyWs c) r2
  pure cap

/-- Pattern `<words>\s*:\s*(up|down)`. -/
def upDownAt (words : List (List Char)) (cs : List Char) : Option (List Char) := do
  let r1 ← wordSeqAt words cs
  let r2 ← colonAt r1
  let (pat, _) ← altLitCI ["up".data, "down".data] r2
  pure pat

/-- First of the four `alt_patterns` label shapes with a match. -/
def scanAltUpDown : List (List (List Char)) → List Char → Option (List Char)
  | [], _ => none
  | ws :: rest, cs =>
    match searchA (upDownAt ws) cs with
    | some p => some p
    | none => scanAltUpDown rest cs

/-- Model of `_parse_pon_status`: short-output guard, then the pattern cascade;
the matched token (lowercased) is up when it contains `connect-ok`
(primary and `[^\s]+` fallbacks) or equals `up` (the up/down
fallbacks). -/
def parse_pon_status (out : String) (iface : String) : List MWrite :=
  if out.data.length < 10 then []
  else
    match searchA ponlinkPrimaryAt out.data with
    | some pat =>
      [⟨.ontPonLinkStatus, [iface], .num (if containsSubL "connect-ok".data pat then 1 else 0)⟩]
    | none =>
      match searchA ponlinkAnyAt out.data with
      | some cap =>
        [⟨.ontPonLinkStatus, [iface],
          .num (if containsSubL "connect-ok".data (cap.map Char.toLower) then 1 else 0)⟩]
      | none =>
        match searchA (upDownAt ["link".data, "status".data]) out.data with
        | some pat =>
          [⟨.ontPonLinkStatus, [iface], .num (if pat = "up".data then 1 else 0)⟩]
        | none =>
          match scanAltUpDown
              [["status".data], ["link".data], ["pon".data, "status".data],
               ["connection".data]] out.data with
          | some pat =>
            [⟨.ontPonLinkStatus, [iface], .num (if pat = "up".data then 1 else 0)⟩]
          | none => []

/-- Pattern `Serdes\s*state\s*\|\s*([\w\s]+)\((0x[0-9a-fA-F]+)\)`: the greedy
`\s*` and the whitespace-containing capture class interact so that the
stripped capture equals the strip of the whole `[\w\s]` run after the
bar; returns (stripped state text, hex digits). -/
def serdesAt (cs : List Char) : Option (List Char × List Char) := do
  let r1 ← wordSeqAt ["serdes".data, "state".data] cs
  let r2 ← expectC '|' (r1.dropWhile pyWs)
  let run := r2.takeWhile wordWsClass
  if run.isEmpty then none
  else do
    let r3 ← expectC '(' (r2.dropWhile wordWsClass)
    let r4 ← litCI "0x".data r3
    let (hex, r5) ← captureRun isHexDigit r4
    let _ ← expectC ')' r5
    pure (pyStripChars run, hex)

def serdes_possible_states : List String :=
  ["Very good", "Good", "Poor", "Error", "Failed", "Unknown"]

/-- Model of `_parse_serdes_state`: the numeric state, then one 0/1 write per
vocabulary state.  (At runtime the text-state writes hit a registry
object `ont_pon_serdes_text_state` that src/metrics_registry.py never
declares, so they raise `AttributeError`; the writes modelled here are
the ones the collector source issues.) -/
def parse_serdes_state (out : String) (iface : String) : List MWrite :=
  match searchA serdesAt out.data with
  | none => []
  | some (txt, hex) =>
    ⟨.ontPonSerdesState, [iface], .num (hexVal hex)⟩ ::
    serdes_possible_states.map (fun st =>
      ⟨.ontPonSerdesTextState, [iface, st], .num (if st.data = txt then 1 else 0)⟩)

/-- Model of `_process_pon_metrics`: FEC counters, PON link status, SerDes state,
each only when its command reply is present. -/
def process_pon_metrics (outs : List (String × String)) (iface : String) : List MWrite :=
  (match outs.lookup "onu show pon counter" with
   | none => []
   | some out => parse_fec_statistics out iface) ++
  (match outs.lookup "onu show ponlink" with
   | none => []
   | some out => parse_pon_status out iface) ++
  (match outs.lookup "onu show pon serdes" with
   | none => []
   | some out => parse_serdes_state out iface)

/-- Pattern `cpu\s*usage\s*:\s*([\d.]+)\s*%`. -/
def cpuAt (cs : List Char) : Option (List Char) := do
  let r1 ← wordSeqAt ["cpu".data, "usage".data] cs
  let r2 ← colonAt r1
  let (cap, r3) ← captureRun udClass r2
  let _ ← expectC '%' (r3.dropWhile pyWs)
  pure cap

/-- Pattern `used/total\s*=\s*(\d+)/(\d+)\s*\(([\d.]+)\s*%\)` — the one
case-sensitive pattern. -/
def memAt (cs : List Char) : Option (List Char × List Char × List Char) := do
  let r1 ← litCS "used/total".data cs
  let r2 ← expectC '=' (r1.dropWhile pyWs)
  let (used, r3) ← captureRun Char.isDigit (r2.dropWhile pyWs)
  let r4 ← expectC '/' r3
  let (total, r5) ← captureRun Char.isDigit r4
  let r6 ← expectC '(' (r5.dropWhile pyWs)
  let (pct, r7) ← captureRun udClass r6
  let r8 ← expectC '%' (r7.dropWhile pyWs)
  let _ ← expectC ')' r8
  pure (used, total, pct)

/-- Model of `_process_system_metrics`: CPU usage, then memory used/total/percent,
where a failing percent conversion aborts all three memory writes (one
try block). -/
def process_system_metrics (outs : List (String × String)) (iface : String) : List MWrite :=
  (match outs.lookup "sysmon cpu" with
   | none => []
   | some out => optNumWrite .ontCpuUsage [iface] ((searchA cpuAt out.data).bind pyFloatRun)) ++
  (match outs.lookup "sysmon memory" with
   | none => []
   | some out =>
     match searchA memAt out.data with
     | none => []
     | some (used, total, pct) =>
       match pyFloatRun pct with
       | none => []
       | some pc =>
         [⟨.ontMemoryUsed, [iface], .num (digitsVal used)⟩,
          ⟨.ontMemoryTotal, [iface], .num (digitsVal total)⟩,
          ⟨.ontMemoryUsage, [iface], .num pc⟩])

/-- Pattern `version\s*:\s*([0-9a-fA-F]+)`. -/
def versionAt (cs : List Char) : Option (List Char) := do
  let r1 ← litCI "version".data cs
  let r2 ← colonAt r1
  let (cap, _) ← captureRun isHexDigit r2
  pure cap

/-- Model of `_process_olt_info`: guard on the `onu dump ptp` reply, then the
vendor-id gauge (only when the extracted id is truthy, i.e. non-zero),
labelled with the resolved vendor name, and the version gauge with the
version token as a label and value 1. -/
def process_olt_info (outs : List (String × String)) (iface : String) : List MWrite :=
  match outs.lookup "onu dump ptp" with
  | none => []
  | some out =>
    if out.data.length < 10 then []
    else
      (match extract_olt_vendor_id out with
       | none => []
       | some vid =>
         if vid ≠ 0 then [⟨.ontOltVendorId, [iface, get_vendor_name vid], .num vid⟩]
         else []) ++
      (match searchA versionAt out.data with
       | none => []
       | some cap => [⟨.ontOltVersion, [iface, ⟨cap⟩], .num 1⟩])

/-- The fast-cadence processing of `collect_regular_metrics`. -/
def ont_regular_writes (iface : String) (outs : List (String × String)) : List MWrite :=
  process_sfp_metrics outs iface ++ process_pon_metrics outs iface ++
  process_system_metrics outs iface

/-- Every processing write the ONT collector can issue across both
cadences (the regular cycle and the vendor cycle). -/
def ont_cycle_writes (iface : String) (outs : List (String × String)) : List MWrite :=
  ont_regular_writes iface outs ++ process_olt_info outs iface

/-! ## ONT cycle entry points -/

/-- The Python error that escapes `collect_olt_vendor_info`'s `finally`
block when `success` was never assigned. -/
inductive PyErr where
  | unboundLocal
  deriving DecidableEq, Repr

instance {ε α : Type} [DecidableEq ε] [DecidableEq α] : DecidableEq (Except ε α) := fun a b =>
  match a, b with
  | .ok x, .ok y =>
    if h : x = y then .isTrue (congrArg Except.ok h)
    else .isFalse (fun hc => h (Except.ok.inj hc))
  | .error x, .error y =>
    if h : x = y then .isTrue (congrArg Except.error h)
    else .isFalse (fun hc => h (Except.error.inj hc))
  | .ok _, .error _ => .isFalse (fun hc => Except.noConfusion hc)
  | .error _, .ok _ => .isFalse (fun hc => Except.noConfusion hc)

/-- Model of `collect_regular_metrics`: `success` is initialised to `False`, the
body's failures are caught, and the `finally` block always runs; returns
the sink writes and the cycle-success flag.  `dur` and `now` stand for
the wall-clock values used by the duration and last-success gauges. -/
def collect_regular_metrics (col : ZaramCollector) (env : SessionEnv)
    (dur now : ℚ) : List MWrite × Bool :=
  match connect_and_collect_regular col env with
  | some outs =>
    if outs.isEmpty then
      ([⟨.collectionDuration, ["zaram_ont"], .num dur⟩,
        ⟨.collectionSuccess, ["zaram_ont"], .num 0⟩], false)
    else
      (ont_regular_writes col.interface_name outs ++
       [⟨.collectionDuration, ["zaram_ont"], .num dur⟩,
        ⟨.collectionSuccess, ["zaram_ont"], .num 1⟩,
        ⟨.lastCollectionTimestamp, ["zaram_ont"], .num now⟩], true)
  | none =>
    ([⟨.collectionDuration, ["zaram_ont"], .num dur⟩,
      ⟨.collectionSuccess, ["zaram_ont"], .num 0⟩], false)

/-- Model of `collect_olt_vendor_info`: unlike the other cycle entry points it
never initialises `success`, so on any failing cycle (no command outputs,
or a caught body error) the `finally` block's `1 if success else 0` read
raises `UnboundLocalError` after the duration gauge write, and that
exception escapes the method; only a fully successful cycle returns a
boolean.  (Its `duration` is the code's `time.time() - time.time()`
artifact, essentially zero.) -/
def collect_olt_vendor_info (col : ZaramCollector) (env : SessionEnv)
    (now : ℚ) : List MWrite × Except PyErr Bool :=
  match connect_and_collect_olt_vendor col env with
  | some outs =>
    if outs.isEmpty then
      ([⟨.collectionDuration, ["zaram_ont"], .num 0⟩], .error .unboundLocal)
    else
      (process_olt_info outs col.interface_name ++
       [⟨.collectionDuration, ["zaram_ont"], .num 0⟩,
        ⟨.collectionSuccess, ["zaram_ont"], .num 1⟩,
        ⟨.lastCollectionTimestamp, ["zaram_ont"], .num now⟩], .ok true)
  | none =>
    ([⟨.collectionDuration, ["zaram_ont"], .num 0⟩], .error .unboundLocal)

end SfpMon

namespace SfpMon

/-! ## RouterOS interface collection (src/routeros_collector.py) -/

/-- A `running` field as the API may deliver it: a string or a JSON
boolean (`isinstance(..., str)` decides the branch). -/
inductive RunVal where
  | s (v : String)
  | b (v : Bool)
  deriving DecidableEq, Repr

/-- One interface descriptor from `GET interface`; absent keys are
`none`.  (Hyphenated JSON keys become underscored field names.) -/
structure Iface where
  name : Option String := none
  running : Option RunVal := none
  link_downs : Option String := none
  last_link_up_time : Option String := none
  last_link_down_time : Option String := none
  rx_byte : Option String := none
  tx_byte : Option String := none
  rx_packet : Option String := none
  tx_packet : Option String := none
  rx_error : Option String := none
  tx_error : Option String := none
  rx_drop : Option String := none
  tx_drop : Option String := none
  tx_queue_drop : Option String := none
  dot_id : Option String := none
  deriving DecidableEq, Repr

/-- One descriptor from `GET interface/pppoe-client`. -/
structure Pppoe where
  name : Option String := none
  running : Option String := none
  status : Option String := none
  deriving DecidableEq, Repr

/-- Python `iface.get('running') == 'true' if isinstance(iface.get('running'), str)
else bool(iface.get('running', False))`. -/
def ifaceRunning (i : Iface) : Bool :=
  match i.running with
  | some (.s v) => v == "true"
  | some (.b v) => v
  | none => false

/-- Model of `_get_pppoe_status`: false without a client list, a matching client,
or a `running` field that lowercases to `true`. -/
def get_pppoe_status (pppoe : Option (List Pppoe)) (interface_name : String) : Bool :=
  match pppoe with
  | none => false
  | some l =>
    if l.isEmpty then false
    else
      match l.find? (fun p => p.name == some interface_name) with
      | none => false
      | some p => pyLower (p.running.getD "") == "true"

def leapYear (y : ℕ) : Bool :=
  (y % 4 == 0 && y % 100 != 0) || y % 400 == 0

def daysInMonth (y m : ℕ) : ℕ :=
  if m = 2 then (if leapYear y then 29 else 28)
  else if m = 4 ∨ m = 6 ∨ m = 9 ∨ m = 11 then 30
  else 31

/-- Whether `datetime.strptime(s, '%Y-%m-%d %H:%M:%S')` accepts `s`, for
the fixed-width form RouterOS emits (four-digit year; field ranges and
month-aware day validation as strptime enforces them). -/
def dateOk (s : String) : Bool :=
  match s.data with
  | [y1, y2, y3, y4, '-', m1, m2, '-', d1, d2, ' ', h1, h2, ':', n1, n2, ':', s1, s2] =>
    [y1, y2, y3, y4, m1, m2, d1, d2, h1, h2, n1, n2, s1, s2].all Char.isDigit &&
    (let y := digitsVal [y1, y2, y3, y4]
     let mo := digitsVal [m1, m2]
     let da := digitsVal [d1, d2]
     1 ≤ mo && mo ≤ 12 && 1 ≤ da && da ≤ daysInMonth y mo &&
     digitsVal [h1, h2] ≤ 23 && digitsVal [n1, n2] ≤ 59 && digitsVal [s1, s2] ≤ 59)
  | _ => false

/-- Model of `_update_link_timestamps`: one gauge write per timestamp field that is
present and parses.  The value written by the code is the parsed
datetime's epoch seconds; the model records the accepted raw string (the
timezone-dependent epoch conversion is not needed by any property). -/
def update_link_timestamps (i : Iface) (name : String) : List MWrite :=
  (match i.last_link_up_time with
   | none => []
   | some t => if dateOk t then [⟨.interfaceLastLinkUp, [name], .str t⟩] else []) ++
  (match i.last_link_down_time with
   | none => []
   | some t => if dateOk t then [⟨.interfaceLastLinkDown, [name], .str t⟩] else [])

/-- The `stats_mapping` table of `_update_interface_stats`, in source
order. -/
def statsMapping (i : Iface) : List (Option String × MetricId) :=
  [(i.rx_byte, .interfaceRxBytes), (i.tx_byte, .interfaceTxBytes),
   (i.rx_packet, .interfaceRxPackets), (i.tx_packet, .interfaceTxPackets),
   (i.rx_error, .interfaceRxErrors), (i.tx_error, .interfaceTxErrors),
   (i.rx_drop, .interfaceRxDrops), (i.tx_drop, .interfaceTxDrops),
   (i.tx_queue_drop, .interfaceTxQueueDrops)]

/-- Model of `_update_interface_stats`: for each present statistic that converts
with `float()`, an absolute `set` on the (counter-named) metric via
`metric.labels(...)._value.set(value)`; conversion failures only log. -/
def update_interface_stats (i : Iface) (name : String) : List MWrite :=
  (statsMapping i).flatMap (fun p => optNumWrite p.2 [name] (p.1.bind pyFloat))

/-- The per-interface body of `collect_interface_metrics` once the
monitored-name guard passed: link status (PPPoE interfaces take theirs
from the PPPoE client list), the link-downs counter, the link
timestamps, the interface statistics. -/
def interface_iface_writes (pppoe : Option (List Pppoe)) (i : Iface) : List MWrite :=
  let name := i.name.getD ""
  let running := if name == "pppoe-wan" then get_pppoe_status pppoe name else ifaceRunning i
  ⟨.interfaceLinkStatus, [name], .num (if running then 1 else 0)⟩ ::
  (optNumWrite .interfaceLinkDowns [name] (i.link_downs.bind pyFloat) ++
   update_link_timestamps i name ++
   update_interface_stats i name)

/-- Model of `collect_interface_metrics` (its per-interface processing and success
flag): a missing or empty interface list fails the cycle; otherwise every
descriptor whose name is in the configured monitored list is processed and
all others are skipped. -/
def collect_interface_metrics (cfg : Config) (interfaces : Option (List Iface))
    (pppoe : Option (List Pppoe)) : Bool × List MWrite :=
  match interfaces with
  | none => (false, [])
  | some ifs =>
    if ifs.isEmpty then (false, [])
    else
      (true, ifs.flatMap (fun i =>
        if cfg.monitored_interfaces.contains (i.name.getD "") then
          interface_iface_writes pppoe i
        else []))

/-! ## RouterOS SFP collection (src/routeros_collector.py) -/

/-- A monitor-endpoint response: a single object or a list of objects. -/
inductive MonResp where
  | obj (d : SfpData)
  | arr (l : List SfpData)

/-- The network environment of one `collect_sfp_metrics` cycle: the
interface list and, per interface id, the two POSTs to
`interface/ethernet/monitor` (the SFP monitor read and the error-stats
read). -/
structure SfpCycleEnv where
  interfaces : Option (List Iface)
  monitor : String → Option MonResp
  errStats : String → Option MonResp

/-- The `error_mapping` table of `_collect_sfp_error_stats`, in source
order. -/
def errMapping (d : SfpData) : List (Option JVal × MetricId) :=
  [(d.sfp_tx_fcs_error, .sfpTxFcsError), (d.sfp_tx_collision, .sfpTxCollision),
   (d.sfp_tx_excessive_collision, .sfpTxExcessiveCollision),
   (d.sfp_tx_late_collision, .sfpTxLateCollision), (d.sfp_tx_deferred, .sfpTxDeferred),
   (d.sfp_rx_too_short, .sfpRxTooShort), (d.sfp_rx_too_long, .sfpRxTooLong),
   (d.sfp_rx_jabber, .sfpRxJabber), (d.sfp_rx_fcs_error, .sfpRxFcsError),
   (d.sfp_rx_align_error, .sfpRxAlignError), (d.sfp_rx_fragment, .sfpRxFragment),
   (d.sfp_rx_overflow, .sfpRxOverflow), (d.sfp_tx_underrun, .sfpTxUnderrun)]

/-- Model of `_collect_sfp_error_stats` given its own monitor response: nothing
unless the response is a (dict) object; then one absolute `set` per
present, convertible statistic. -/
def collect_sfp_error_stats (resp : Option MonResp) (name : String) : List MWrite :=
  match resp with
  | none => []
  | some (.arr _) => []
  | some (.obj d) =>
    (errMapping d).flatMap (fun p => optNumWrite p.2 [name] (p.1.bind jvalFloat))

/-- Model of `collect_sfp_metrics` (per-interface processing and success flag):
only descriptors literally named `sfp-sfpplus1` are considered — the
monitored-interfaces list is not consulted on this path; the monitor
response is normalised list-vs-object (preferring the entry whose name
matches, else the head), processed, and followed by the error-stats
pass. -/
def collect_sfp_metrics (env : SfpCycleEnv) (thr : ℚ) : Bool × List MWrite :=
  match env.interfaces with
  | none => (false, [])
  | some ifs =>
    if ifs.isEmpty then (false, [])
    else
      (true, ifs.flatMap (fun i =>
        let name := i.name.getD ""
        if name == "sfp-sfpplus1" then
          let ifid := i.dot_id.getD ""
          match env.monitor ifid with
          | none => []
          | some (.arr []) => []
          | some (.arr (d :: ds)) =>
            let chosen := (((d :: ds).find? (fun x => x.name == some name)).getD d)
            routeros_process_sfp_metrics chosen name thr ++
            collect_sfp_error_stats (env.errStats ifid) name
          | some (.obj d) =>
            routeros_process_sfp_metrics d name thr ++
            collect_sfp_error_stats (env.errStats ifid) name
        else []))

/-! ## Metric sink state -/

/-- The sink as a map from (metric, label values) to the last value set. -/
def MetricState : Type := MetricId × List String → Option MVal

/-- Apply one absolute `set`. -/
def applyW (w : MWrite) (st : MetricState) : MetricState :=
  fun k => if k = (w.metric, w.labels) then some w.value else st k

/-- Apply a write list in order. -/
def applyWrites (ws : List MWrite) (st : MetricState) : MetricState :=
  ws.foldl (fun s w => applyW w s) st

end SfpMon

namespace SfpMon

/-! ## Concrete scenarios used by the properties below -/

def exampleCollector : ZaramCollector := ⟨"sfp-sfpplus1", some "pw"⟩

/-- A trace where the whole handshake succeeds (no SSH password prompt,
router prompt, telnet login, device password prompt and device prompt all
seen), every command answers, and only the teardown expect for the router
prompt times out. -/
def teardownTimeoutEnv : SessionEnv :=
  { sshAuth := 1, routerPrompt := 0, telnetLogin := 0, passwordPrompt := 0,
    devicePrompt := 0,
    cmdResult := fun _ => .reply "value: 1\x0d\nrest\x0d\n",
    exitPromptOk := false }

/-- A fully successful regular session whose third command (index 2)
times out. -/
def thirdTimeoutEnv : SessionEnv :=
  { sshAuth := 1, routerPrompt := 0, telnetLogin := 0, passwordPrompt := 0,
    devicePrompt := 0,
    cmdResult := fun i => if i = 2 then .timedOut else .reply "value: 1\x0d\nrest\x0d\n",
    exitPromptOk := true }

/-- A vendor-cycle trace that fails during the handshake (telnet expect
timed out). -/
def oltFailEnv : SessionEnv :=
  { sshAuth := 1, routerPrompt := 0, telnetLogin := 2, passwordPrompt := 0,
    devicePrompt := 0, cmdResult := fun _ => .raised, exitPromptOk := true }

/-- A fully successful vendor-cycle trace. -/
def oltOkEnv : SessionEnv :=
  { sshAuth := 1, routerPrompt := 0, telnetLogin := 0, passwordPrompt := 0,
    devicePrompt := 0,
    cmdResult := fun _ => .reply "onu dump ptp \x0d\n oltVendorId : 5a49\x0d\n version : 30303131\x0d\n",
    exitPromptOk := true }

/-- The spec scenario's SFP interface descriptor. -/
def sfpDescEx : Iface :=
  { name := some "sfp-sfpplus1", running := some (.s "true"),
    rx_byte := some "12345", dot_id := some "*1" }

/-- The spec scenario's unmonitored second interface. -/
def etherDescEx : Iface :=
  { name := some "ether1", running := some (.s "true"), rx_byte := some "99" }

/-- An SFP cycle in which the router reports only `sfp-sfpplus1` and the
monitor endpoint returns a temperature reading. -/
def sfpOnlyEnv : SfpCycleEnv :=
  { interfaces := some [sfpDescEx],
    monitor := fun _ => some (.obj { status := some "link-ok",
                                     sfp_temperature := some (.s "53.0C") }),
    errStats := fun _ => none }

end SfpMon

namespace SfpMon

/-! ## Theorems: vendor identification and optical-power staleness -/

/-- C5: the vendor round trip fails in the code.  The scraped id `5a49`
is parsed to 23113, but `_get_vendor_name` renders it as the
zero-padded `"0x00005a49"` (`f"0x{vendor_id:08x}"`), which misses the
table's own entry `"0x5a49" : "Zaram"`, so the lookup falls back to
"Unknown" — contradicting both the spec's round trip and the table entry;
an id absent from the table does resolve to "Unknown" without raising. -/
theorem vendor_id_roundtrip_C5 :
    extract_olt_vendor_id "oltVendorId : 5a49" = some 23113 ∧
    formatHex08 23113 = "0x00005a49" ∧
    olt_vendor_map.lookup "0x5a49" = some "Zaram" ∧
    get_vendor_name 23113 = "Unknown" ∧
    get_vendor_name 1 = "Unknown" := by
  exact ⟨by decide, by decide, by decide, by decide, by decide⟩

/-- C1: for a parsed rx and tx power reading, `_process_optical_power`
sets the staleness gauge for (interface, metric type) to 1 exactly when
the link is down and the power is strictly above the threshold, to 0
otherwise, and in both cases still publishes the power value itself. -/
theorem optical_power_staleness_C1
    (d : SfpData) (jvr jvt : JVal) (p q : ℚ) (name : String) (link : Bool) (thr : ℚ)
    (hr : d.sfp_rx_power = some jvr) (ht : d.sfp_tx_power = some jvt)
    (hpr : parseDbmField jvr = some p) (hpt : parseDbmField jvt = some q) :
    process_optical_power d name link thr =
      [⟨.sfpDataStale, [name, "rx_power"], .num (if link = false ∧ p > thr then 1 else 0)⟩,
       ⟨.sfpRxPower, [name], .num p⟩,
       ⟨.sfpDataStale, [name, "tx_power"], .num (if link = false ∧ q > thr then 1 else 0)⟩,
       ⟨.sfpTxPower, [name], .num q⟩] := by
  simp [process_optical_power, powerBlock, hr, ht, hpr, hpt]

/-- C1 witness: the spec's three scenarios at the default threshold −40.
Link down with rx = −5 dBm flags stale and still publishes −5; link up
with the same reading does not flag; link down with rx = −41 dBm (below
the noise floor) does not flag. -/
theorem optical_power_staleness_C1_witness :
    process_optical_power { sfp_rx_power := some (.s "-5.0dBm"),
                            sfp_tx_power := some (.s "-5.0dBm") } "sfp-sfpplus1" false (-40) =
      [⟨.sfpDataStale, ["sfp-sfpplus1", "rx_power"], .num 1⟩,
       ⟨.sfpRxPower, ["sfp-sfpplus1"], .num (-5)⟩,
       ⟨.sfpDataStale, ["sfp-sfpplus1", "tx_power"], .num 1⟩,
       ⟨.sfpTxPower, ["sfp-sfpplus1"], .num (-5)⟩] ∧
    process_optical_power { sfp_rx_power := some (.s "-5.0dBm"),
                            sfp_tx_power := some (.s "-5.0dBm") } "sfp-sfpplus1" true (-40) =
      [⟨.sfpDataStale, ["sfp-sfpplus1", "rx_power"], .num 0⟩,
       ⟨.sfpRxPower, ["sfp-sfpplus1"], .num (-5)⟩,
       ⟨.sfpDataStale, ["sfp-sfpplus1", "tx_power"], .num 0⟩,
       ⟨.sfpTxPower, ["sfp-sfpplus1"], .num (-5)⟩] ∧
    process_optical_power { sfp_rx_power := some (.s "-41.0dBm"),
                            sfp_tx_power := some (.s "-41.0dBm") } "sfp-sfpplus1" false (-40) =
      [⟨.sfpDataStale, ["sfp-sfpplus1", "rx_power"], .num 0⟩,
       ⟨.sfpRxPower, ["sfp-sfpplus1"], .num (-41)⟩,
       ⟨.sfpDataStale, ["sfp-sfpplus1", "tx_power"], .num 0⟩,
       ⟨.sfpTxPower, ["sfp-sfpplus1"], .num (-41)⟩] := by
  refine ⟨?_, ?_, ?_⟩
  · rw [optical_power_staleness_C1 _ _ _ (-5) (-5) _ _ _ rfl rfl (by decide) (by decide)]
    decide
  · rw [optical_power_staleness_C1 _ _ _ (-5) (-5) _ _ _ rfl rfl (by decide) (by decide)]
    decide
  · rw [optical_power_staleness_C1 _ _ _ (-41) (-41) _ _ _ rfl rfl (by decide) (by decide)]
    decide

/-- Helper: every write a power block makes targets the staleness gauge
or its own power metric, so for power metrics the last-verified gauge is
never touched. -/
theorem powerBlock_no_last_verified (f : Option JVal) (n mt : String) (pm : MetricId)
    (l : Bool) (t : ℚ) (hpm : (pm == MetricId.sfpLastVerified) = false) :
    (powerBlock f n mt pm l t).all
      (fun w => !(w.metric == MetricId.sfpLastVerified)) = true := by
  cases f with
  | none => rfl
  | some jv =>
    cases hp : parseDbmField jv with
    | none => simp [powerBlock, hp]
    | some p => simp [powerBlock, hp, hpm]

/-- C8: contrary to the spec, `_process_optical_power` never records a
"last verified now" observation: no input makes it write the
`sfp_last_verified` gauge (declared in src/metrics_registry.py and written
only by the legacy monitor.py), in the non-stale case or any other. -/
theorem no_last_verified_write_C8 (d : SfpData) (name : String) (link : Bool) (thr : ℚ) :
    (process_optical_power d name link thr).all
      (fun w => !(w.metric == MetricId.sfpLastVerified)) = true := by
  unfold process_optical_power
  rw [List.all_append, Bool.and_eq_true]
  exact ⟨powerBlock_no_last_verified _ _ _ _ _ _ rfl,
         powerBlock_no_last_verified _ _ _ _ _ _ rfl⟩

/-! ## HTTP 401 retry (C2) -/

/-- C2 counterexample: on two consecutive 401s the request returns no
result after exactly one credential re-resolution and one retry, but it
increments no error-kind counter at all — not the "exactly one" the claim
states (the non-200 terminal path only logs). -/
theorem request_double_401_counterexample_C2 :
    make_request (α := ℕ) true true .get (fun i => HttpOutcome.resp 401 i true) =
      ⟨none, 1, [], 2⟩ ∧
    (make_request (α := ℕ) true true .get
      (fun i => HttpOutcome.resp 401 i true)).errKinds.length = 0 := by
  exact ⟨by decide, by decide⟩

/-- C2 (amended): with the password set, a first 401 causes exactly one
credential re-resolution and one retry of the same request; a 200 on the
retry returns its parsed body, and a second 401 returns no result with no
further retry and no error-kind counter increment. -/
theorem request_auth_retry_C2 {α : Type} (net : ℕ → HttpOutcome α) (b1 b2 : α)
    (h0 : net 0 = HttpOutcome.resp 401 b1 true) :
    (net 1 = HttpOutcome.resp 200 b2 true →
      make_request true true .get net = ⟨some b2, 1, [], 2⟩) ∧
    (net 1 = HttpOutcome.resp 401 b2 true →
      make_request true true .get net = ⟨none, 1, [], 2⟩) := by
  constructor <;> intro h1 <;> simp [make_request, h0, h1, settleResponse]

/-- C2 witness: a 401 answered by a 200 on the retry at concrete inputs. -/
theorem request_auth_retry_C2_witness :
    make_request (α := ℕ) true true .get
      (fun i => if i = 0 then HttpOutcome.resp 401 5 true else HttpOutcome.resp 200 9 true) =
      ⟨some 9, 1, [], 2⟩ :=
  (request_auth_retry_C2 _ 5 9 rfl).1 rfl

/-! ## Shell session whole-session failure (C3, C4) -/

/-- C3 counterexample: a session whose handshake fully succeeds and whose
commands all answer still yields no result when the teardown expect for
the router prompt times out, because that timeout raises and the blanket
handler returns `None`. -/
theorem shell_session_teardown_counterexample_C3 :
    regularHandshakeOk exampleCollector teardownTimeoutEnv = true ∧
    connect_and_collect_regular exampleCollector teardownTimeoutEnv = none := by
  exact ⟨by decide, by decide⟩

/-- C4: `collect_olt_vendor_info` never initialises `success`, so a cycle
whose session fails (here: telnet expect timeout during the handshake)
raises `UnboundLocalError` out of the method from its `finally` block
instead of returning `False`; a fully successful cycle does return a
boolean. -/
theorem olt_vendor_unbound_success_C4 :
    (collect_olt_vendor_info exampleCollector oltFailEnv 0).2 =
      Except.error PyErr.unboundLocal ∧
    (collect_olt_vendor_info exampleCollector oltOkEnv 0).2 = Except.ok true := by
  exact ⟨by decide, by decide⟩


/-- Helper: the command loop's i-th entry pairs the i-th regular command
with its processed reply. -/
theorem run_regular_get (env : SessionEnv) (i : ℕ) (h : i < 6) :
    (run_regular_commands env).getD i ("", "") =
      (regular_commands.getD i "", regularCmdText env i (regular_commands.getD i "")) := by
  interval_cases i <;> rfl

/-- C3 (amended): any handshake failure before the command loop yields no
result; a successful handshake whose teardown exit exchange also
completes yields the mapping with exactly one entry per attempted command
(6 on the regular path), where a timed-out command maps to the empty
string and an answered command maps to its cleaned captured reply. -/
theorem shell_session_C3 (col : ZaramCollector) (env : SessionEnv) :
    (regularHandshakeOk col env = false → connect_and_collect_regular col env = none) ∧
    (regularHandshakeOk col env = true → env.exitPromptOk = true →
      connect_and_collect_regular col env = some (run_regular_commands env) ∧
      (run_regular_commands env).map Prod.fst = regular_commands ∧
      (run_regular_commands env).length = 6 ∧
      (∀ i, i < 6 → env.cmdResult i = CmdOutcome.timedOut →
        ((run_regular_commands env).getD i ("", "")).2 = "") ∧
      (∀ i t, i < 6 → env.cmdResult i = CmdOutcome.reply t →
        ((run_regular_commands env).getD i ("", "")).2 =
          pyStrip ⟨removeAllOcc (regular_commands.getD i "").data t.data⟩)) := by
  constructor
  · intro h
    unfold connect_and_collect_regular
    by_cases h1 : env.sshAuth = 0
    · simp [h1]
    · by_cases h2 : env.routerPrompt = 0
      · by_cases h3 : env.telnetLogin = 0
        · by_cases h4 : env.passwordPrompt = 0
          · rcases hpw : col.zaram_ont_password with _ | p
            · simp [h1, h2, h3, h4, hpw]
            · by_cases h5 : env.devicePrompt = 0
              · exfalso
                simp [regularHandshakeOk, h1, h2, h3, h4, h5, hpw] at h
              · simp [h1, h2, h3, h4, hpw, h5]
          · simp [h1, h2, h3, h4]
        · simp [h1, h2, h3]
      · simp [h1, h2]
  · intro hok hexit
    simp only [regularHandshakeOk, Bool.and_eq_true, decide_eq_true_eq] at hok
    obtain ⟨⟨⟨⟨⟨hs, hr⟩, ht⟩, hp⟩, hpwS⟩, hd⟩ := hok
    rcases hpw : col.zaram_ont_password with _ | p
    · rw [hpw] at hpwS; simp at hpwS
    · refine ⟨?_, rfl, rfl, ?_, ?_⟩
      · simp [connect_and_collect_regular, hs, hr, ht, hp, hpw, hd, hexit]
      · intro i hi hto
        rw [run_regular_get env i hi]
        simp [regularCmdText, hto]
      · intro i t hi hre
        rw [run_regular_get env i hi]
        simp [regularCmdText, hre]

/-- C3 witness: a fully successful session whose third command times out
returns the 6-entry mapping with an empty string for that command and the
cleaned reply text for the other five. -/
theorem shell_session_C3_witness :
    connect_and_collect_regular exampleCollector thirdTimeoutEnv =
      some [("sfp info", "value: 1\x0d\nrest"),
            ("onu show pon counter", "value: 1\x0d\nrest"),
            ("onu show ponlink", ""),
            ("onu show pon serdes", "value: 1\x0d\nrest"),
            ("sysmon cpu", "value: 1\x0d\nrest"),
            ("sysmon memory", "value: 1\x0d\nrest")] :=
  ((shell_session_C3 exampleCollector thirdTimeoutEnv).2 (by decide) rfl).1.trans
    (congrArg some (by decide))


/-! ## Generic write-list lemmas -/

theorem all_append_intro {α : Type} (l1 l2 : List α) (p : α → Bool)
    (h1 : l1.all p = true) (h2 : l2.all p = true) : (l1 ++ l2).all p = true := by
  rw [List.all_append, h1, h2]
  rfl

theorem all_flatMap_intro {α β : Type} (l : List α) (f : α → List β) (p : β → Bool)
    (h : ∀ a ∈ l, (f a).all p = true) : (l.flatMap f).all p = true := by
  induction l with
  | nil => rfl
  | cons a l ih =>
    rw [List.flatMap_cons]
    exact all_append_intro _ _ _ (h a (List.mem_cons_self a l))
      (ih (fun x hx => h x (List.mem_cons_of_mem a hx)))

theorem all_imp_of {α : Type} (l : List α) (p q : α → Bool) (h : l.all p = true)
    (himp : ∀ a, p a = true → q a = true) : l.all q = true := by
  rw [List.all_eq_true] at *
  exact fun a ha => himp a (h a ha)

theorem optNumWrite_all {p : MWrite → Bool} (m : MetricId) (ls : List String) (o : Option ℚ)
    (h : ∀ v : ℚ, p ⟨m, ls, .num v⟩ = true) : (optNumWrite m ls o).all p = true := by
  cases o <;> simp [optNumWrite, h]

/-! ## Temperature scraper (C7) -/

/-- C7: the temperature scraper extracts 53.25 from a well-formed
`temperature: 53.250C` line and sets only the temperature gauge; when the
pattern finds no match (different label, or missing `C` suffix, as in the
two concrete inputs) the processing writes nothing at all for
temperature — in particular never a fabricated 0.0. -/
theorem temperature_scraper_C7 :
    (process_sfp_metrics_text "temperature: 53.250C" "sfp-sfpplus1" =
      [⟨.ontSfpTemperature, ["sfp-sfpplus1"], .num (mkRat 5325 100)⟩]) ∧
    (∀ out iface, searchA tempAt out.data = none →
      (process_sfp_metrics_text out iface).all
        (fun w => !(w.metric == MetricId.ontSfpTemperature)) = true) ∧
    searchA tempAt "temperature: 53.250".data = none ∧
    searchA tempAt "temp: 53.250C".data = none := by
  refine ⟨by decide, ?_, by decide, by decide⟩
  intro out iface hnone
  unfold process_sfp_metrics_text
  split
  · rfl
  · repeat' apply all_append_intro
    all_goals first
      | (rw [hnone]; rfl)
      | exact optNumWrite_all _ _ _ (fun v => rfl)

/-- C7 witness: the universal no-match part applied to the
missing-suffix input. -/
theorem temperature_scraper_C7_witness :
    (process_sfp_metrics_text "temperature: 53.250" "x").all
      (fun w => !(w.metric == MetricId.ontSfpTemperature)) = true :=
  temperature_scraper_C7.2.1 "temperature: 53.250" "x" temperature_scraper_C7.2.2.1

/-! ## Idempotence of absolute-set writes (C9) -/

theorem applyWrites_cons (w : MWrite) (ws : List MWrite) (st : MetricState) :
    applyWrites (w :: ws) st = applyWrites ws (applyW w st) := rfl

theorem applyWrites_unwritten (ws : List MWrite) (st : MetricState)
    (k : MetricId × List String) (h : ∀ w ∈ ws, (w.metric, w.labels) ≠ k) :
    applyWrites ws st k = st k := by
  induction ws generalizing st with
  | nil => rfl
  | cons w ws ih =>
    rw [applyWrites_cons, ih (applyW w st) (fun x hx => h x (List.mem_cons_of_mem w hx))]
    have hw : k ≠ (w.metric, w.labels) := Ne.symm (h w (List.mem_cons_self w ws))
    simp [applyW, hw]

theorem applyWrites_congr (ws : List MWrite) (st st' : MetricState)
    (h : ∀ k, (∀ w ∈ ws, (w.metric, w.labels) ≠ k) → st' k = st k) :
    applyWrites ws st' = applyWrites ws st := by
  induction ws generalizing st st' with
  | nil => funext k; exact h k (by simp)
  | cons w ws ih =>
    rw [applyWrites_cons, applyWrites_cons]
    apply ih
    intro k hk
    by_cases hkey : k = (w.metric, w.labels)
    · simp [applyW, hkey]
    · simp only [applyW, if_neg hkey]
      apply h
      intro x hx
      rcases List.mem_cons.mp hx with rfl | hx'
      · exact fun he => hkey he.symm
      · exact hk x hx'

/-- Replaying any list of absolute `set`s is a no-op: the sink ends in
the same state as after one pass. -/
theorem applyWrites_idem (ws : List MWrite) (st : MetricState) :
    applyWrites ws (applyWrites ws st) = applyWrites ws st :=
  applyWrites_congr ws st (applyWrites ws st)
    (fun k hk => applyWrites_unwritten ws st k hk)

/-- C9: processing the same interface descriptor (or the same SFP
error-statistics response) twice leaves every metric exactly where one
pass left it — the byte/packet/error/drop statistics are written by
absolute `set` (`_value.set`), not incremented, so nothing accumulates. -/
theorem stats_idempotent_C9 (i : Iface) (resp : Option MonResp) (name : String)
    (st : MetricState) :
    applyWrites (update_interface_stats i name)
        (applyWrites (update_interface_stats i name) st) =
      applyWrites (update_interface_stats i name) st ∧
    applyWrites (collect_sfp_error_stats resp name)
        (applyWrites (collect_sfp_error_stats resp name) st) =
      applyWrites (collect_sfp_error_stats resp name) st :=
  ⟨applyWrites_idem _ _, applyWrites_idem _ _⟩


/-! ## Label lemmas: every write carries its interface label first -/

theorem mkOptW_all {p : MWrite → Bool} (field : Option JVal) (marker : String)
    (set : List Char) (m : MetricId) (name : String)
    (h : ∀ v : ℚ, p ⟨m, [name], .num v⟩ = true) :
    (mkOptW field marker set m name).all p = true := by
  unfold mkOptW
  split
  · rfl
  · split
    · rfl
    · simp [h]

theorem powerBlock_all {p : MWrite → Bool} (f : Option JVal) (name mtype : String)
    (pm : MetricId) (l : Bool) (t : ℚ)
    (h1 : ∀ v : ℚ, p ⟨.sfpDataStale, [name, mtype], .num v⟩ = true)
    (h2 : ∀ v : ℚ, p ⟨pm, [name], .num v⟩ = true) :
    (powerBlock f name mtype pm l t).all p = true := by
  unfold powerBlock
  split
  · rfl
  · split
    · rfl
    · simp [h1, h2]

theorem routeros_process_sfp_labels (d : SfpData) (name : String) (thr : ℚ) :
    (routeros_process_sfp_metrics d name thr).all
      (fun w => w.labels.headD "" == name) = true := by
  unfold routeros_process_sfp_metrics process_optical_power process_sfp_vendor_serial
  repeat' apply all_append_intro
  all_goals first
    | exact mkOptW_all _ _ _ _ _ (fun v => by simp)
    | exact powerBlock_all _ _ _ _ _ _ (fun v => by simp) (fun v => by simp)
    | (split
       · rfl
       · split <;> simp)

theorem collect_sfp_error_stats_labels (resp : Option MonResp) (name : String) :
    (collect_sfp_error_stats resp name).all
      (fun w => w.labels.headD "" == name) = true := by
  unfold collect_sfp_error_stats
  split
  · rfl
  · rfl
  · exact all_flatMap_intro _ _ _ (fun a _ => optNumWrite_all _ _ _ (fun v => by simp))

theorem update_interface_stats_labels (i : Iface) (name : String) :
    (update_interface_stats i name).all (fun w => w.labels.headD "" == name) = true := by
  unfold update_interface_stats
  exact all_flatMap_intro _ _ _ (fun a _ => optNumWrite_all _ _ _ (fun v => by simp))

theorem update_link_timestamps_labels (i : Iface) (name : String) :
    (update_link_timestamps i name).all (fun w => w.labels.headD "" == name) = true := by
  unfold update_link_timestamps
  apply all_append_intro <;>
  · split
    · rfl
    · split <;> simp

theorem interface_iface_writes_labels (pp : Option (List Pppoe)) (i : Iface) :
    (interface_iface_writes pp i).all
      (fun w => w.labels.headD "" == i.name.getD "") = true := by
  unfold interface_iface_writes
  simp only [List.all_cons, Bool.and_eq_true]
  refine ⟨by simp, ?_⟩
  repeat' apply all_append_intro
  all_goals first
    | exact optNumWrite_all _ _ _ (fun v => by simp)
    | (split
       · rfl
       · split <;> simp)
    | rfl


theorem collect_interface_metrics_labels (cfg : Config) (ifs : Option (List Iface))
    (pp : Option (List Pppoe)) :
    ((collect_interface_metrics cfg ifs pp).2).all
      (fun w => cfg.monitored_interfaces.contains (w.labels.headD "")) = true := by
  unfold collect_interface_metrics
  cases ifs with
  | none => rfl
  | some l =>
    cases he : l.isEmpty
    · simp only [he]
      apply all_flatMap_intro
      intro i _
      dsimp only
      split
      next hc =>
        apply all_imp_of _ _ _ (interface_iface_writes_labels pp i)
        intro w hw
        have hhead : w.labels.headD "" = i.name.getD "" := by simpa using hw
        rw [hhead]
        exact hc
      next _ => rfl
    · simp only [he]; rfl

theorem collect_sfp_metrics_labels (env : SfpCycleEnv) (thr : ℚ) :
    ((collect_sfp_metrics env thr).2).all
      (fun w => w.labels.headD "" == "sfp-sfpplus1") = true := by
  unfold collect_sfp_metrics
  cases env.interfaces with
  | none => rfl
  | some l =>
    cases he : l.isEmpty
    · simp only [he]
      apply all_flatMap_intro
      intro i _
      dsimp only
      split
      next hn =>
        have hname : i.name.getD "" = "sfp-sfpplus1" := by simpa using hn
        rw [hname]
        split
        · rfl
        · rfl
        · exact all_append_intro _ _ _ (routeros_process_sfp_labels _ _ _)
            (collect_sfp_error_stats_labels _ _)
        · exact all_append_intro _ _ _ (routeros_process_sfp_labels _ _ _)
            (collect_sfp_error_stats_labels _ _)
      next _ => rfl
    · simp only [he]; rfl

/-- C6 counterexample: the SFP collection path filters on the literal
interface name `sfp-sfpplus1` and never consults the monitored list — with
`MONITORED_INTERFACES=ether1` it still writes metrics labelled
`sfp-sfpplus1`, so "an interface not in the monitored list produces no
metric writes in any collection path" fails as stated. -/
theorem interface_filter_counterexample_C6 :
    (Config.mk ["ether1"] (-40)).monitored_interfaces.contains "sfp-sfpplus1" = false ∧
    (collect_sfp_metrics sfpOnlyEnv (-40)).2 =
      [⟨.sfpTemperature, ["sfp-sfpplus1"], .num 53⟩] := by
  exact ⟨by decide, by decide⟩

/-- C6 (amended): the interface-stats path writes metrics only under
names from the configured monitored list (and in the spec scenario sets
link status 1 and RX bytes 12345 for the monitored `sfp-sfpplus1` while
the unmonitored `ether1` descriptor produces no write), whereas the SFP
path writes only under the fixed name `sfp-sfpplus1`, irrespective of the
monitored list. -/
theorem interface_filtering_C6 :
    (∀ cfg ifs pp, ((collect_interface_metrics cfg ifs pp).2).all
        (fun w => cfg.monitored_interfaces.contains (w.labels.headD "")) = true) ∧
    (∀ env thr, ((collect_sfp_metrics env thr).2).all
        (fun w => w.labels.headD "" == "sfp-sfpplus1") = true) ∧
    collect_interface_metrics (Config.mk ["sfp-sfpplus1"] (-40))
        (some [sfpDescEx, etherDescEx]) none =
      (true, [⟨.interfaceLinkStatus, ["sfp-sfpplus1"], .num 1⟩,
              ⟨.interfaceRxBytes, ["sfp-sfpplus1"], .num 12345⟩]) := by
  exact ⟨collect_interface_metrics_labels, collect_sfp_metrics_labels, by decide⟩


theorem process_sfp_metrics_text_labels (out : String) (iface : String) :
    (process_sfp_metrics_text out iface).all
      (fun w => w.labels.headD "" == iface) = true := by
  unfold process_sfp_metrics_text
  split
  · rfl
  · repeat' apply all_append_intro
    all_goals exact optNumWrite_all _ _ _ (fun v => by simp)

theorem process_sfp_metrics_labels (outs : List (String × String)) (iface : String) :
    (process_sfp_metrics outs iface).all (fun w => w.labels.headD "" == iface) = true := by
  unfold process_sfp_metrics
  split
  · rfl
  · exact process_sfp_metrics_text_labels _ _

theorem parse_fec_statistics_labels (out : String) (iface : String) :
    (parse_fec_statistics out iface).all (fun w => w.labels.headD "" == iface) = true := by
  unfold parse_fec_statistics
  split
  · rfl
  · repeat' apply all_append_intro
    all_goals exact optNumWrite_all _ _ _ (fun v => by simp)

theorem parse_pon_status_labels (out : String) (iface : String) :
    (parse_pon_status out iface).all (fun w => w.labels.headD "" == iface) = true := by
  unfold parse_pon_status
  split
  · rfl
  · split
    · simp
    · split
      · simp
      · split
        · simp
        · split
          · simp
          · rfl

theorem parse_serdes_state_labels (out : String) (iface : String) :
    (parse_serdes_state out iface).all (fun w => w.labels.headD "" == iface) = true := by
  unfold parse_serdes_state
  split
  · rfl
  · simp [serdes_possible_states]

theorem process_pon_metrics_labels (outs : List (String × String)) (iface : String) :
    (process_pon_metrics outs iface).all (fun w => w.labels.headD "" == iface) = true := by
  unfold process_pon_metrics
  repeat' apply all_append_intro
  all_goals first
    | (split
       · rfl
       · first
         | exact parse_fec_statistics_labels _ _
         | exact parse_pon_status_labels _ _
         | exact parse_serdes_state_labels _ _)

theorem process_system_metrics_labels (outs : List (String × String)) (iface : String) :
    (process_system_metrics outs iface).all (fun w => w.labels.headD "" == iface) = true := by
  unfold process_system_metrics
  apply all_append_intro
  · split
    · rfl
    · exact optNumWrite_all _ _ _ (fun v => by simp)
  · split
    · rfl
    · split
      · rfl
      · split
        · rfl
        · simp

theorem process_olt_info_labels (outs : List (String × String)) (iface : String) :
    (process_olt_info outs iface).all (fun w => w.labels.headD "" == iface) = true := by
  unfold process_olt_info
  split
  · rfl
  · split
    · rfl
    · apply all_append_intro
      · split
        · rfl
        · split <;> simp
      · split
        · rfl
        · simp

theorem ont_cycle_writes_labels (iface : String) (outs : List (String × String)) :
    (ont_cycle_writes iface outs).all (fun w => w.labels.headD "" == iface) = true := by
  unfold ont_cycle_writes ont_regular_writes
  apply all_append_intro
  · apply all_append_intro
    · apply all_append_intro
      · exact process_sfp_metrics_labels _ _
      · exact process_pon_metrics_labels _ _
    · exact process_system_metrics_labels _ _
  · exact process_olt_info_labels _ _

/-- C10: the ONT collector fixes its interface label at construction time
to the first configured monitored interface — construction only succeeds
on a non-empty list (`monitored_interfaces[0]` raises `IndexError`
otherwise) — and every metric write any of its processing paths can issue
carries that one interface name as its leading label. -/
theorem ont_label_invariant_C10 :
    (∀ ms pw c, zaram_init ms pw = some c →
      ms ≠ [] ∧ ms.head? = some c.interface_name) ∧
    (∀ iface outs, (ont_cycle_writes iface outs).all
      (fun w => w.labels.headD "" == iface) = true) := by
  constructor
  · intro ms pw c h
    cases ms with
    | nil => simp [zaram_init] at h
    | cons n t =>
      cases pw with
      | none => simp [zaram_init] at h
      | some p =>
        simp only [zaram_init, Option.some.injEq] at h
        subst h
        exact ⟨List.cons_ne_nil n t, rfl⟩
  · intro iface outs
    exact ont_cycle_writes_labels iface outs

/-- C10 witness: construction from the one-element list fixes the label,
and a sample cycle's writes all carry it. -/
theorem ont_label_invariant_C10_witness :
    (["sfp-sfpplus1"] ≠ [] ∧ (["sfp-sfpplus1"] : List String).head? =
      some (ZaramCollector.mk "sfp-sfpplus1" (some "pw")).interface_name) ∧
    (ont_cycle_writes "sfp-sfpplus1" [("sfp info", "temperature: 53.250C")]).all
      (fun w => w.labels.headD "" == "sfp-sfpplus1") = true :=
  ⟨ont_label_invariant_C10.1 ["sfp-sfpplus1"] (some "pw") _ rfl,
   ont_label_invariant_C10.2 "sfp-sfpplus1" [("sfp info", "temperature: 53.250C")]⟩

end SfpMon
